import Mathlib

/-!
# Verification of the APP_VIRGIN backend session-security core

Shallow embedding of the Rust backend's token lifecycle and request
authentication subsystem (`src/backend/src/api/{jwt,auth,csrf,password}.rs`
and `src/backend/src/config.rs`), together with theorems settling the
specification claims about it.

Modelling conventions:
* Rust `i64` timestamps and durations are modelled as `Int` (the realistic
  values are far from the `i64` boundaries, and no claim concerns overflow).
* `chrono::Utc::now()` is an explicit `now : Int` parameter; `uuid` values
  are explicit `jti` string parameters (pure functions of external
  randomness).
* JWT strings are modelled symbolically by the `Token` type: `Token.signed c k`
  is the serialization of claims `c` signed (HS256) with key `k`, and
  `Token.garbage s` is any string that is not a well-formed signed JWT.
  This captures the cryptographic contract (a signature verifies exactly
  under the signing key; decoding recovers exactly the signed claims).
* Header maps are association lists with case-insensitive name lookup, as in
  `http::HeaderMap`; header values are taken to be valid visible-ASCII/UTF-8
  strings, so `HeaderValue::to_str` always succeeds.
* Logging (`tracing`, `eprintln!`) is not modelled except where an outcome
  distinction depends on it (see `SecretOutcome.devFallbackWithWarning`).
-/

namespace AppVirgin

set_option autoImplicit false

/-- Decidable equality on `Except` results, for evaluating the model on
concrete inputs. -/
instance instDecEqExcept {ε α : Type} [DecidableEq ε] [DecidableEq α] :
    DecidableEq (Except ε α) := fun a b =>
  match a, b with
  | .ok x, .ok y =>
    if h : x = y then .isTrue (by rw [h]) else .isFalse (by intro hc; cases hc; exact h rfl)
  | .error x, .error y =>
    if h : x = y then .isTrue (by rw [h]) else .isFalse (by intro hc; cases hc; exact h rfl)
  | .ok _, .error _ => .isFalse (by intro hc; cases hc)
  | .error _, .ok _ => .isFalse (by intro hc; cases hc)

/-! ## Token claims (`src/backend/src/api/jwt.rs`) -/

/-- JWT claims, from `struct Claims` in `jwt.rs`. -/
structure Claims where
  sub : String
  email : String
  token_type : String
  exp : Int
  iat : Int
  jti : String
deriving DecidableEq, Repr

/-- `ACCESS_TOKEN_DURATION_MINUTES` in `jwt.rs`. -/
def ACCESS_TOKEN_DURATION_MINUTES : Int := 15

/-- `REFRESH_TOKEN_DURATION_DAYS` in `jwt.rs`. -/
def REFRESH_TOKEN_DURATION_DAYS : Int := 7

/-- `Claims::new_access` in `jwt.rs`: expiry 15 minutes from `now`,
`token_type = "access"`. `chrono::Duration::minutes(15)` is 900 seconds. -/
def Claims.new_access (now : Int) (jti : String) (user_id : Int) (email : String) : Claims :=
  { sub := toString user_id
    email := email
    token_type := "access"
    exp := now + ACCESS_TOKEN_DURATION_MINUTES * 60
    iat := now
    jti := jti }

/-- `Claims::new_refresh` in `jwt.rs`: expiry 7 days from `now`,
`token_type = "refresh"`. `chrono::Duration::days(7)` is 604800 seconds. -/
def Claims.new_refresh (now : Int) (jti : String) (user_id : Int) (email : String) : Claims :=
  { sub := toString user_id
    email := email
    token_type := "refresh"
    exp := now + REFRESH_TOKEN_DURATION_DAYS * 24 * 60 * 60
    iat := now
    jti := jti }

/-- `Claims::is_access_token` in `jwt.rs`. -/
def Claims.is_access_token (c : Claims) : Bool := c.token_type == "access"

/-- `Claims::is_refresh_token` in `jwt.rs`. -/
def Claims.is_refresh_token (c : Claims) : Bool := c.token_type == "refresh"

/-! ## The canonical API error type (`src/backend/src/api/mod.rs`) -/

/-- `enum ApiError` in `api/mod.rs`. -/
inductive ApiError where
  | BadRequest (msg : String)
  | Unauthorized (msg : String)
  | Forbidden (msg : String)
  | NotFound (msg : String)
  | Conflict (msg : String)
  | ServiceUnavailable (msg : String)
  | InternalError (msg : String)
deriving DecidableEq, Repr

/-- Decimal-digit run parser underlying `str::parse::<i64>`: `some` of the
value when the characters are a non-empty all-digit run. -/
def parseDigits (ds : List Char) : Option Nat :=
  if ds.isEmpty then none
  else if ds.all Char.isDigit then
    some (ds.foldl (fun n c => n * 10 + (c.toNat - 48)) 0)
  else none

/-- Rust `str::parse::<i64>`: optional single `+`/`-` sign, a non-empty
all-digit run, and the value within the `i64` range. -/
def parseI64 (s : String) : Option Int :=
  let signed : Option Int :=
    match s.data with
    | '+' :: ds => (parseDigits ds).map Int.ofNat
    | '-' :: ds => (parseDigits ds).map (fun n => -(Int.ofNat n))
    | ds => (parseDigits ds).map Int.ofNat
  signed.bind (fun v =>
    if -(2 ^ 63) ≤ v ∧ v ≤ 2 ^ 63 - 1 then some v else none)

/-- `Claims::user_id` in `jwt.rs`: `self.sub.parse::<i64>()`, mapping a parse
failure to `Unauthorized("Invalid token subject")`. -/
def Claims.user_id (c : Claims) : Except ApiError Int :=
  match parseI64 c.sub with
  | some i => .ok i
  | none => .error (.Unauthorized ("Invalid token subject"))

/-! ## Symbolic JWTs and the `jsonwebtoken` crate interface -/

/-- A JWT string, symbolically: either the serialization of claims signed with
a key, or any other string (`garbage s` carries the raw string so that, e.g.,
Rust's `String::is_empty` remains expressible). -/
inductive Token where
  | signed (claims : Claims) (key : String)
  | garbage (raw : String)
deriving DecidableEq, Repr

/-- Rust `String::is_empty` on the token string. A signed JWT serialization
(`base64(header).base64(payload).base64(sig)`) is never the empty string. -/
def Token.isEmptyS : Token → Bool
  | .signed _ _ => false
  | .garbage s => s.isEmpty

/-- The `jsonwebtoken::errors::ErrorKind` values distinguished by
`validate_token` in `jwt.rs`. `InvalidSignature` stands in for every kind
that falls into the catch-all `_` arm there. -/
inductive JwtErrorKind where
  | ExpiredSignature
  | InvalidToken
  | InvalidSignature
deriving DecidableEq, Repr

/-- The `leeway` field of `jsonwebtoken::Validation::default()`:
`Validation::new(Algorithm::HS256)` sets `leeway: 60` (seconds). This default
tolerance is applied by the crate's expiry check, which `validate_token` in
`jwt.rs` invokes via `decode(token, key, &Validation::default())`. -/
def JWT_DEFAULT_LEEWAY : Int := 60

/-- `jsonwebtoken::encode(&Header::default(), &claims, &EncodingKey::from_secret(key))`,
symbolically: signing is total (HMAC-SHA256 of a serializable struct cannot
fail), and produces the signed serialization of the claims. -/
def jwt_encode (key : String) (c : Claims) : Token := .signed c key

/-- `jsonwebtoken::decode::<Claims>(token, &DecodingKey::from_secret(key), &Validation::default())`,
symbolically. The crate first verifies the signature (a string that is not a
well-formed JWT is `InvalidToken`; a well-formed JWT signed under a different
key is `InvalidSignature`), and only then validates the `exp` claim of the
signature-verified payload: with `Validation::default()` the token is expired
iff `exp < now - leeway` where `leeway = 60`. -/
def jwt_decode (now : Int) (key : String) (t : Token) : Except JwtErrorKind Claims :=
  match t with
  | .garbage _ => .error .InvalidToken
  | .signed c k =>
    if k ≠ key then .error .InvalidSignature
    else if c.exp < now - JWT_DEFAULT_LEEWAY then .error .ExpiredSignature
    else .ok c

/-! ## Token generation and validation (`src/backend/src/api/jwt.rs`) -/

/-- `struct TokenPair` in `jwt.rs`. -/
structure TokenPair where
  access_token : Token
  refresh_token : Token
  expires_in : Int
deriving DecidableEq, Repr

/-- `generate_token_pair` in `jwt.rs`. The two `uuid::Uuid::new_v4()` draws
are the explicit parameters `jti_a`, `jti_r`; `get_jwt_secret()` is the
explicit parameter `secret`. Encoding is total (see `jwt_encode`), so the
`Err` branches of the Rust function are unreachable and the result is the
pair itself. -/
def generate_token_pair (now : Int) (jti_a jti_r : String) (secret : String)
    (user_id : Int) (email : String) : TokenPair :=
  { access_token := jwt_encode secret (Claims.new_access now jti_a user_id email)
    refresh_token := jwt_encode secret (Claims.new_refresh now jti_r user_id email)
    expires_in := ACCESS_TOKEN_DURATION_MINUTES * 60 }

/-- `generate_access_token` in `jwt.rs`. -/
def generate_access_token (now : Int) (jti : String) (secret : String)
    (user_id : Int) (email : String) : Token :=
  jwt_encode secret (Claims.new_access now jti user_id email)

/-- `validate_token` in `jwt.rs`: decode with `Validation::default()`, mapping
the error kinds exactly as the `match e.kind()` there does. -/
def validate_token (now : Int) (secret : String) (t : Token) : Except ApiError Claims :=
  match jwt_decode now secret t with
  | .ok c => .ok c
  | .error .ExpiredSignature => .error (.Unauthorized ("Token expired"))
  | .error .InvalidToken => .error (.Unauthorized ("Invalid token"))
  | .error .InvalidSignature => .error (.Unauthorized ("Token validation failed"))

/-- `validate_access_token` in `jwt.rs`: validate, then reject non-access
claims. -/
def validate_access_token (now : Int) (secret : String) (t : Token) : Except ApiError Claims :=
  match validate_token now secret t with
  | .error e => .error e
  | .ok claims =>
    if !claims.is_access_token then .error (.Unauthorized ("Invalid token type"))
    else .ok claims

/-- `validate_refresh_token` in `jwt.rs`: validate, then reject non-refresh
claims. -/
def validate_refresh_token (now : Int) (secret : String) (t : Token) : Except ApiError Claims :=
  match validate_token now secret t with
  | .error e => .error e
  | .ok claims =>
    if !claims.is_refresh_token then .error (.Unauthorized ("Invalid token type"))
    else .ok claims

/-! ## Constant-time comparison (`src/backend/src/api/csrf.rs`) -/

/-- The loop body of `constant_time_eq` in `csrf.rs`: XOR-accumulate byte
pairs into `result` with `|=`. A Rust `&str` is its UTF-8 byte sequence, so
the inputs are byte lists (`u8` values as `Nat`; `^` and `|` never exceed a
byte, so no wraparound arises). -/
def ct_accum : Nat → List (Nat × Nat) → Nat
  | r, [] => r
  | r, (x, y) :: rest => ct_accum (r ||| (x ^^^ y)) rest

/-- `constant_time_eq` in `csrf.rs`: length mismatch short-circuits to
`false`; otherwise XOR-accumulate over `a.bytes().zip(b.bytes())` and compare
the accumulator with `0`. -/
def constant_time_eq (a b : List Nat) : Bool :=
  if a.length ≠ b.length then false
  else ct_accum 0 (a.zip b) == 0

/-! ## Header maps and cookie parsing -/

/-- An `http::HeaderMap`, as an association list of (name, value) pairs.
`HeaderMap` lookup is case-insensitive in the header name; `get` returns the
first value for the name. -/
abbrev Headers := List (String × String)

/-- Rust `char::to_lowercase` restricted to its single-`char` ASCII action
(the strings compared here — header names, `"native"`, `"production"` — are
ASCII, where Rust's Unicode lowering and this one agree). -/
def lowerStr (s : String) : String := String.mk (s.data.map Char.toLower)

/-- Rust `str::trim` on a character sequence. Rust trims the Unicode
`White_Space` class; `Char.isWhitespace` covers its ASCII part, which is all
that occurs in HTTP header values. -/
def trimChars (l : List Char) : List Char :=
  ((l.dropWhile Char.isWhitespace).reverse.dropWhile Char.isWhitespace).reverse

/-- Rust `str::trim` as a string function. -/
def trimS (s : String) : String := String.mk (trimChars s.data)

/-- Rust `str::split(sep)` on a character sequence: the parts between
occurrences of `sep`, keeping empty parts (so `""` yields `[""]` and
adjacent separators yield empty parts), exactly as Rust's iterator does. -/
def splitOnChar (sep : Char) : List Char → List (List Char)
  | [] => [[]]
  | c :: cs =>
    match splitOnChar sep cs with
    | [] => [[]]
    | part :: parts => if c = sep then [] :: part :: parts else (c :: part) :: parts

/-- Rust `str::strip_prefix` on character sequences: `some` of the remainder
when the first argument leads the second, else `none`. -/
def stripPreChars : List Char → List Char → Option (List Char)
  | [], s => some s
  | _ :: _, [] => none
  | p :: ps, c :: cs => if p = c then stripPreChars ps cs else none

/-- `HeaderMap::get(name)` followed by `HeaderValue::to_str()`: first entry
whose name matches case-insensitively (header names are ASCII). -/
def headerGet (headers : Headers) (name : String) : Option String :=
  (headers.find? (fun p => lowerStr p.fst == lowerStr name)).map (fun p => p.snd)

/-- `ACCESS_TOKEN_COOKIE_NAME` in `auth.rs`. -/
def ACCESS_TOKEN_COOKIE_NAME : String := "access_token"

/-- `REFRESH_TOKEN_COOKIE_NAME` in `auth.rs`. -/
def REFRESH_TOKEN_COOKIE_NAME : String := "refresh_token"

/-- `CSRF_COOKIE_NAME` in `csrf.rs`. -/
def CSRF_COOKIE_NAME : String := "csrf_token"

/-- `CSRF_HEADER_NAME` in `csrf.rs`. -/
def CSRF_HEADER_NAME : String := "x-csrf-token"

/-- The cookie-scanning loop shared (textually repeated) by
`extract_refresh_token_from_cookie` and `extract_token_from_request` in
`auth.rs` and by `extract_csrf_from_cookie` in `csrf.rs`: split the `Cookie`
header value on `';'`, trim each part, and return the first part that both
strips the leading `"<name>="` and has a non-empty remainder. An empty value
does not return early — the `for` loop (resp. the `find_map` with
`.filter(|v| !v.is_empty())`) continues to the next part. -/
def cookieFindValue (name : String) (cookies_str : String) : Option String :=
  (splitOnChar ';' cookies_str.data).findSome? (fun cookie =>
    match stripPreChars (name.data ++ ['=']) (trimChars cookie) with
    | some value => if value.isEmpty then none else some (String.mk value)
    | none => none)

/-- `extract_refresh_token_from_cookie` in `auth.rs`. -/
def extract_refresh_token_from_cookie (headers : Headers) : Option String :=
  match headerGet headers "cookie" with
  | none => none
  | some cookies_str => cookieFindValue REFRESH_TOKEN_COOKIE_NAME cookies_str

/-- `extract_csrf_from_cookie` in `csrf.rs`. -/
def extract_csrf_from_cookie (headers : Headers) : Option String :=
  match headerGet headers "cookie" with
  | none => none
  | some cookies_str => cookieFindValue CSRF_COOKIE_NAME cookies_str

/-- `extract_token_from_request` in `auth.rs`: the `Authorization` header is
checked first — any value beginning with `"Bearer "` returns the remainder
immediately (with no emptiness check) — and only otherwise is the
`access_token` cookie parsed, with the same empty-skipping loop as the
refresh extractor. -/
def extract_token_from_request (headers : Headers) : Option String :=
  match (headerGet headers "authorization").bind
      (fun s => (stripPreChars ("Bearer ").data s.data).map String.mk) with
  | some token => some token
  | none =>
    match headerGet headers "cookie" with
    | none => none
    | some cookies_str => cookieFindValue ACCESS_TOKEN_COOKIE_NAME cookies_str

/-! ## Client-type detection and environment -/

/-- The client-type check used identically by `login` and `refresh` in
`auth.rs` (`headers.get("X-Client-Type").map(|v| v.to_str().unwrap_or("").to_lowercase() == "native").unwrap_or(false)`)
and by `csrf_middleware` in `csrf.rs`: the `X-Client-Type` header is present
and its value lowercases to `"native"`. -/
def is_native_client (headers : Headers) : Bool :=
  match headerGet headers "x-client-type" with
  | some v => lowerStr v == "native"
  | none => false

/-- The process environment, as an association list (exact-name lookup). -/
abbrev Env := List (String × String)

/-- `std::env::var(key)` (for keys that are present with valid-UTF-8
values). -/
def envVar (env : Env) (key : String) : Option String :=
  (env.find? (fun p => p.fst == key)).map (fun p => p.snd)

/-- `is_production()` in `auth.rs` (and the identical inline check in
`build_csrf_cookie` in `csrf.rs`): `ENVIRONMENT` is set and lowercases to
`"production"` or `"prod"`. -/
def is_production (env : Env) : Bool :=
  match envVar env "ENVIRONMENT" with
  | some v => lowerStr v == "production" || lowerStr v == "prod"
  | none => false

/-! ## CSRF middleware (`src/backend/src/api/csrf.rs`) -/

/-- The Unicode scalar-value sequence of a string. A Rust `&str` is compared
by `constant_time_eq` as its UTF-8 byte sequence; both that sequence and this
one are injective images of the string, and the middleware observes only the
resulting equality Boolean, so the two byte-level views decide the same
predicate. -/
def charCodes (s : String) : List Nat := s.data.map Char.toNat

/-- `constant_time_eq(&cookie, &header)` as invoked by `csrf_middleware` on
two strings. -/
def str_ct_eq (a b : String) : Bool := constant_time_eq (charCodes a) (charCodes b)

/-- Outcome of `csrf_middleware`: run the inner service, or short-circuit
with `403 Forbidden` and the given JSON `error` message. -/
inductive CsrfDecision where
  | proceed
  | forbidden (error : String)
deriving DecidableEq, Repr

/-- `csrf_middleware` in `csrf.rs`. Safe methods (`GET`, `HEAD`, `OPTIONS`)
pass unconditionally; native clients pass; otherwise the `csrf_token` cookie
and `x-csrf-token` header are extracted and matched: `(Some, Some)` with a
constant-time match proceeds, a missing cookie is rejected with the
fetch-first message, and every other case (missing header, or mismatch) is
rejected as invalid. -/
def csrf_middleware (method : String) (headers : Headers) : CsrfDecision :=
  if method == "GET" || method == "HEAD" || method == "OPTIONS" then .proceed
  else if is_native_client headers then .proceed
  else
    match extract_csrf_from_cookie headers, headerGet headers CSRF_HEADER_NAME with
    | some cookie, some header =>
      if str_ct_eq cookie header then .proceed
      else .forbidden "CSRF token invalid"
    | none, _ => .forbidden "CSRF token missing. Fetch /api/v1/csrf first."
    | some _, none => .forbidden "CSRF token invalid"

/-! ## Cookie builders (`src/backend/src/api/auth.rs`) -/

/-- `ACCESS_TOKEN_MAX_AGE_SECONDS` in `auth.rs` (15 minutes). -/
def ACCESS_TOKEN_MAX_AGE_SECONDS : Int := 900

/-- `REFRESH_TOKEN_MAX_AGE_SECONDS` in `auth.rs` (7 days). -/
def REFRESH_TOKEN_MAX_AGE_SECONDS : Int := 604800

/-- `build_auth_cookie` in `auth.rs`. `production` is the value of the
request-time `is_production()` check. -/
def build_auth_cookie (production : Bool) (token : String) (clear : Bool) : String :=
  let max_age := if clear then 0 else ACCESS_TOKEN_MAX_AGE_SECONDS
  let secure_flag := if production then "; Secure" else ""
  ACCESS_TOKEN_COOKIE_NAME ++ "=" ++ token ++ "; HttpOnly; SameSite=Lax; Path=/; Max-Age="
    ++ toString max_age ++ secure_flag

/-- `build_refresh_cookie` in `auth.rs`: longer expiry, path restricted to
the auth endpoint group. -/
def build_refresh_cookie (production : Bool) (token : String) (clear : Bool) : String :=
  let max_age := if clear then 0 else REFRESH_TOKEN_MAX_AGE_SECONDS
  let secure_flag := if production then "; Secure" else ""
  REFRESH_TOKEN_COOKIE_NAME ++ "=" ++ token ++ "; HttpOnly; SameSite=Lax; Path=/api/v1/auth; Max-Age="
    ++ toString max_age ++ secure_flag

/-! ## Login endpoint (`src/backend/src/api/auth.rs`) -/

/-- `struct LoginRequest` in `auth.rs`. -/
structure LoginRequest where
  email : String
  password : String
deriving DecidableEq, Repr

/-- `struct LoginResponse` in `auth.rs` (`None` fields are skipped during
serialization). -/
structure LoginResponse where
  success : Bool
  message : String
  access_token : Option String
  refresh_token : Option String
  expires_in : Option Int
deriving DecidableEq, Repr

/-- The `TokenPair` as the login handler sees it: the two JWT strings and the
access lifetime, at the string level. -/
structure TokenPairS where
  access_token : String
  refresh_token : String
  expires_in : Int
deriving DecidableEq, Repr

/-- An HTTP response of the login endpoint: status code, the `Set-Cookie`
header values in emission order, and the JSON body. -/
structure HttpLoginResponse where
  status : Nat
  set_cookies : List String
  body : LoginResponse
deriving DecidableEq, Repr

/-- `login` in `auth.rs`. After the emptiness check on email and password the
handler performs NO credential verification: the database lookup and
`verify_password` call are commented-out `TODO` code, and the handler signs
tokens for the fixed `demo_user_id = 1` with the request's email. `gen` is
the result of that `generate_token_pair(demo_user_id, demo_email)` call
(`Err` yields the 500 branch); `production` is the request-time
`is_production()` value used by the cookie builders. -/
def login (production : Bool) (headers : Headers) (request : LoginRequest)
    (gen : Except ApiError TokenPairS) : HttpLoginResponse :=
  if request.email.isEmpty || request.password.isEmpty then
    { status := 400
      set_cookies := []
      body := { success := false, message := "Email and password are required"
                access_token := none, refresh_token := none, expires_in := none } }
  else
    match gen with
    | .error _ =>
      { status := 500
        set_cookies := []
        body := { success := false, message := "Authentication failed"
                  access_token := none, refresh_token := none, expires_in := none } }
    | .ok token_pair =>
      if is_native_client headers then
        { status := 200
          set_cookies := []
          body := { success := true, message := "Login successful"
                    access_token := some token_pair.access_token
                    refresh_token := some token_pair.refresh_token
                    expires_in := some token_pair.expires_in } }
      else
        { status := 200
          set_cookies := [build_auth_cookie production token_pair.access_token false,
                          build_refresh_cookie production token_pair.refresh_token false]
          body := { success := true, message := "Login successful"
                    access_token := none, refresh_token := none
                    expires_in := some token_pair.expires_in } }

/-! ## Refresh endpoint (`src/backend/src/api/auth.rs`) -/

/-- `struct RefreshRequest` in `auth.rs`, at the symbolic token level. -/
structure RefreshRequestT where
  refresh_token : Token
deriving DecidableEq, Repr

/-- An HTTP response of the refresh endpoint. `set_cookie_access` records the
token written by the web branch's `build_auth_cookie(&new_access_token, false)`
`Set-Cookie` header (`none` = no `Set-Cookie`); the body fields cover both
the `RefreshResponse` shape and the ad hoc JSON bodies of the error and web
branches. -/
structure RefreshHttpResponse where
  status : Nat
  set_cookie_access : Option Token
  success : Bool
  message : Option String
  body_access_token : Option Token
  body_expires_in : Option Int
deriving DecidableEq, Repr

/-- `refresh` in `auth.rs`. `body` is the optional JSON payload
(`Option<Json<RefreshRequest>>`); `cookie_refresh` is the value of
`extract_refresh_token_from_cookie(&headers)` lifted to the symbolic token
space (the string-level parser is modelled separately as
`extract_refresh_token_from_cookie`). The token is taken from the body
whenever a body is present, else from the cookie; a missing or empty result
is `401`; `validate_refresh_token` failure is `401`; an unparsable subject is
`401`; then `generate_access_token` (total, see `jwt_encode`; the Rust 500
branch models an unreachable encoding failure) and the client-type branch. -/
def refresh (now : Int) (secret : String) (jti : String) (headers : Headers)
    (cookie_refresh : Option Token) (body : Option RefreshRequestT) : RefreshHttpResponse :=
  let token? :=
    match body with
    | some req => some req.refresh_token
    | none => cookie_refresh
  match token? with
  | none =>
    { status := 401, set_cookie_access := none, success := false
      message := some "Refresh token required"
      body_access_token := none, body_expires_in := none }
  | some t =>
    if t.isEmptyS then
      { status := 401, set_cookie_access := none, success := false
        message := some "Refresh token required"
        body_access_token := none, body_expires_in := none }
    else
      match validate_refresh_token now secret t with
      | .error _ =>
        { status := 401, set_cookie_access := none, success := false
          message := some "Invalid or expired refresh token"
          body_access_token := none, body_expires_in := none }
      | .ok claims =>
        match claims.user_id with
        | .error _ =>
          { status := 401, set_cookie_access := none, success := false
            message := some "Invalid token claims"
            body_access_token := none, body_expires_in := none }
        | .ok user_id =>
          let new_access_token := generate_access_token now jti secret user_id claims.email
          if is_native_client headers then
            { status := 200, set_cookie_access := none, success := true
              message := none
              body_access_token := some new_access_token, body_expires_in := some 900 }
          else
            { status := 200, set_cookie_access := some new_access_token, success := true
              message := none
              body_access_token := none, body_expires_in := some 900 }

/-! ## Password hashing (`src/backend/src/api/password.rs`) -/

/-- `MIN_PASSWORD_LENGTH` in `password.rs`. -/
def MIN_PASSWORD_LENGTH : Nat := 8

/-- `MAX_PASSWORD_LENGTH` in `password.rs`. -/
def MAX_PASSWORD_LENGTH : Nat := 128

/-- `validate_password_strength` in `password.rs`. Rust `str::len()` is the
UTF-8 byte length; `char::is_ascii_digit` is `Char.isDigit`; the Unicode
`char::is_alphabetic` table is the explicit parameter `alphabetic` (every
theorem below holds for an arbitrary table; witnesses instantiate it with
`Char.isAlpha`, which agrees with Rust on the ASCII range). -/
def validate_password_strength (alphabetic : Char → Bool) (password : String) :
    Except ApiError Unit :=
  if password.utf8ByteSize < MIN_PASSWORD_LENGTH then
    .error (.BadRequest ("Password must be at least 8 characters"))
  else if password.utf8ByteSize > MAX_PASSWORD_LENGTH then
    .error (.BadRequest ("Password must be at most 128 characters"))
  else
    let has_letter := password.data.any alphabetic
    let has_digit := password.data.any Char.isDigit
    if !has_letter || !has_digit then
      .error (.BadRequest ("Password must contain at least one letter and one number"))
    else
      .ok ()

/-- A PHC-format Argon2id hash, symbolically: the fresh random salt (the
`SaltString::generate(&mut OsRng)` draw, an explicit parameter) and the
hashed password. -/
structure PhcString where
  salt : String
  password : String
deriving DecidableEq, Repr

/-- `hash_password` in `password.rs`: validate, then hash with a fresh salt.
The Argon2id computation is modelled symbolically and is total (its `Err`
branch maps an internal backend failure that cannot arise for valid
arguments); claim-relevant behavior is the validation gate. -/
def hash_password (alphabetic : Char → Bool) (salt : String) (password : String) :
    Except ApiError PhcString :=
  match validate_password_strength alphabetic password with
  | .error e => .error e
  | .ok _ => .ok { salt := salt, password := password }

/-! ## Startup configuration (`src/backend/src/config.rs`, `jwt.rs`) -/

/-- `struct AppConfig` in `config.rs`, restricted to the fields the claims
concern. `host` and `port` are parsed with infallible defaults in the source
(`unwrap_or`), so they cannot affect whether `from_env` errs and are
omitted. -/
structure AppConfig where
  database_url : Option String
  database_required : Bool
  allowed_origins : List String
  environment : String
deriving DecidableEq, Repr

/-- `AppConfig::from_env` in `config.rs`. `main` exits the process
(`std::process::exit(1)`) when this returns `Err`, so an `Err` result is a
fatal startup error. -/
def AppConfig.from_env (env : Env) : Except String AppConfig :=
  let database_url := (envVar env "DATABASE_URL").filter (fun v => !(trimS v).isEmpty)
  let database_required :=
    ((envVar env "DATABASE_REQUIRED").bind (fun v =>
      match lowerStr v with
      | "1" | "true" | "yes" => some true
      | "0" | "false" | "no" => some false
      | _ => none)).getD database_url.isSome
  if database_required && database_url.isNone then
    .error "DATABASE_REQUIRED=true but DATABASE_URL is missing"
  else
    let environment := lowerStr ((envVar env "ENVIRONMENT").getD "development")
    let is_production := environment == "production" || environment == "prod"
    let allowed_origins :=
      match (envVar env "ALLOWED_ORIGINS").map (fun v =>
          (((splitOnChar ',' v.data).map (fun part => String.mk (trimChars part))).filter
            (fun s => !s.isEmpty))) with
      | some l => l
      | none =>
        if is_production then []
        else ["http://localhost:8081", "http://localhost:19006",
              "http://127.0.0.1:8081", "http://10.0.2.2:8081"]
    if is_production && allowed_origins.isEmpty then
      .error "ALLOWED_ORIGINS must be set in production"
    else if is_production && (envVar env "JWT_SECRET").isNone then
      .error "JWT_SECRET must be set in production"
    else
      .ok { database_url := database_url, database_required := database_required
            allowed_origins := allowed_origins, environment := environment }

/-- The fixed development fallback secret in `get_jwt_secret` in `jwt.rs`. -/
def DEV_JWT_SECRET : String := "DEVELOPMENT_ONLY_SECRET_CHANGE_IN_PRODUCTION_32bytes"

/-- Outcome of `get_jwt_secret` in `jwt.rs`: the secret from the environment;
the development fallback `DEV_JWT_SECRET` together with the
`eprintln!` warning it prints; or the `panic!` of a release build without
`JWT_SECRET`. -/
inductive SecretOutcome where
  | fromEnv (secret : String)
  | devFallbackWithWarning
  | panicked
deriving DecidableEq, Repr

/-- `get_jwt_secret` in `jwt.rs`. `debug_assertions` is the compile-time
`cfg!(debug_assertions)` flag (true in a debug build, false in a release
build): the development fallback is gated on it, not on `ENVIRONMENT`. -/
def get_jwt_secret (debug_assertions : Bool) (env : Env) : SecretOutcome :=
  match envVar env "JWT_SECRET" with
  | some s => .fromEnv s
  | none => if debug_assertions then .devFallbackWithWarning else .panicked

/-! ## Helper lemmas -/

/-- Bitwise-or of naturals is zero iff both are zero. -/
lemma nat_or_eq_zero_iff (a b : Nat) : a ||| b = 0 ↔ a = 0 ∧ b = 0 := by
  constructor
  · intro h
    have hb : ∀ i, a.testBit i = false ∧ b.testBit i = false := by
      intro i
      have h2 := congrArg (fun n => Nat.testBit n i) h
      simp only [Nat.testBit_lor, Nat.zero_testBit, Bool.or_eq_false_iff] at h2
      exact h2
    exact ⟨Nat.zero_of_testBit_eq_false (fun i => (hb i).1),
           Nat.zero_of_testBit_eq_false (fun i => (hb i).2)⟩
  · rintro ⟨rfl, rfl⟩; rfl

/-- The XOR-accumulator is zero iff it started zero and every zipped byte
pair is equal. -/
lemma ct_accum_eq_zero (r : Nat) (l : List (Nat × Nat)) :
    ct_accum r l = 0 ↔ r = 0 ∧ ∀ p ∈ l, p.1 = p.2 := by
  induction l generalizing r with
  | nil => simp [ct_accum]
  | cons hd tl ih =>
    simp only [ct_accum, ih, nat_or_eq_zero_iff, List.mem_cons]
    constructor
    · rintro ⟨⟨hr, hx⟩, htl⟩
      refine ⟨hr, fun p hp => ?_⟩
      rcases hp with rfl | hp
      · exact Nat.xor_eq_zero.mp hx
      · exact htl p hp
    · rintro ⟨hr, hall⟩
      exact ⟨⟨hr, Nat.xor_eq_zero.mpr (hall hd (Or.inl rfl))⟩,
        fun p hp => hall p (Or.inr hp)⟩

/-- Lists of equal length are equal iff every zipped pair is equal. -/
lemma zip_forall_eq : ∀ (a b : List Nat), a.length = b.length →
    ((∀ p ∈ a.zip b, p.1 = p.2) ↔ a = b) := by
  intro a
  induction a with
  | nil => intro b h; cases b <;> simp_all
  | cons x xs ih =>
    intro b h
    cases b with
    | nil => simp at h
    | cons y ys =>
      simp only [List.length_cons, Nat.add_right_cancel_iff] at h
      simp only [List.zip_cons_cons, List.mem_cons, List.cons.injEq]
      constructor
      · intro hall
        refine ⟨hall (x, y) (Or.inl rfl), ?_⟩
        exact (ih ys h).mp (fun p hp => hall p (Or.inr hp))
      · rintro ⟨rfl, rfl⟩
        intro p hp
        rcases hp with rfl | hp
        · rfl
        · exact ((ih xs h).mpr rfl) p hp

/-- Correctness of the XOR-accumulation comparison: it decides equality of
byte lists. -/
lemma constant_time_eq_iff (a b : List Nat) : constant_time_eq a b = true ↔ a = b := by
  by_cases h : a.length = b.length
  · simp only [constant_time_eq, h, ne_eq, not_true_eq_false, if_false, beq_iff_eq,
      ct_accum_eq_zero, true_and]
    rw [zip_forall_eq a b h]
  · simp only [constant_time_eq, if_pos h]
    constructor
    · intro hc; cases hc
    · intro hc; exact absurd (by rw [hc]) h

/-- `Char.toNat` is injective. -/
lemma charToNat_inj {c d : Char} (h : c.toNat = d.toNat) : c = d :=
  Char.ext (UInt32.ext h)

/-- `charCodes` is injective: scalar-value sequences determine the string. -/
lemma charCodes_inj {a b : String} (h : charCodes a = charCodes b) : a = b := by
  apply String.ext
  have := List.map_injective_iff.mpr (fun c d hcd => charToNat_inj hcd)
  exact this h

/-- The string-level constant-time comparison decides string equality. -/
lemma str_ct_eq_iff (a b : String) : str_ct_eq a b = true ↔ a = b := by
  unfold str_ct_eq
  rw [constant_time_eq_iff]
  constructor
  · exact charCodes_inj
  · intro h; rw [h]

/-- A type-specific validator accepts exactly when the general validator
accepts and the verified claims have the required type (access case). -/
lemma validate_access_token_ok_iff (now : Int) (secret : String) (t : Token) (c : Claims) :
    validate_access_token now secret t = .ok c ↔
      validate_token now secret t = .ok c ∧ c.token_type = "access" := by
  simp only [validate_access_token]
  cases hv : validate_token now secret t with
  | error e => simp
  | ok claims =>
    by_cases ht : claims.token_type = "access"
    · simp only [Claims.is_access_token, ht, beq_self_eq_true, Bool.not_true,
        Bool.false_eq_true, if_false, Except.ok.injEq]
      constructor
      · intro h; exact ⟨by rw [h], by rw [← h]; exact ht⟩
      · rintro ⟨h, _⟩; exact h
    · have hb : claims.is_access_token = false := by
        simp [Claims.is_access_token, ht]
      simp only [hb, Bool.not_false, if_true]
      constructor
      · intro h; cases h
      · rintro ⟨h, hc⟩
        cases h
        exact absurd hc ht

/-- A type-specific validator accepts exactly when the general validator
accepts and the verified claims have the required type (refresh case). -/
lemma validate_refresh_token_ok_iff (now : Int) (secret : String) (t : Token) (c : Claims) :
    validate_refresh_token now secret t = .ok c ↔
      validate_token now secret t = .ok c ∧ c.token_type = "refresh" := by
  simp only [validate_refresh_token]
  cases hv : validate_token now secret t with
  | error e => simp
  | ok claims =>
    by_cases ht : claims.token_type = "refresh"
    · simp only [Claims.is_refresh_token, ht, beq_self_eq_true, Bool.not_true,
        Bool.false_eq_true, if_false, Except.ok.injEq]
      constructor
      · intro h; exact ⟨by rw [h], by rw [← h]; exact ht⟩
      · rintro ⟨h, _⟩; exact h
    · have hb : claims.is_refresh_token = false := by
        simp [Claims.is_refresh_token, ht]
      simp only [hb, Bool.not_false, if_true]
      constructor
      · intro h; cases h
      · rintro ⟨h, hc⟩
        cases h
        exact absurd hc ht

/-- The general validator never yields the wrong-type message: its only
errors are those produced before any type check. -/
lemma validate_token_ne_wrongtype (now : Int) (secret : String) (t : Token) :
    validate_token now secret t ≠ .error (.Unauthorized "Invalid token type") := by
  unfold validate_token jwt_decode
  cases t with
  | garbage s => simp
  | signed c k =>
    by_cases hk : k = secret
    · subst hk
      by_cases he : c.exp < now - JWT_DEFAULT_LEEWAY <;> simp [he]
    · simp [hk]

/-- The wrong-type rejection arises exactly on signature-verified claims of
the wrong type (access case). -/
lemma validate_access_token_wrongtype_iff (now : Int) (secret : String) (t : Token) :
    validate_access_token now secret t = .error (.Unauthorized "Invalid token type") ↔
      ∃ c, validate_token now secret t = .ok c ∧ c.token_type ≠ "access" := by
  simp only [validate_access_token]
  cases hv : validate_token now secret t with
  | error e =>
    constructor
    · intro h
      cases h
      exact absurd hv (validate_token_ne_wrongtype now secret t)
    · rintro ⟨c, hc, _⟩; cases hc
  | ok claims =>
    by_cases ht : claims.token_type = "access"
    · simp only [Claims.is_access_token, ht, beq_self_eq_true, Bool.not_true,
        Bool.false_eq_true, if_false]
      constructor
      · intro h; cases h
      · rintro ⟨c, hc, hne⟩
        cases hc
        exact absurd ht hne
    · have hb : claims.is_access_token = false := by
        simp [Claims.is_access_token, ht]
      simp only [hb, Bool.not_false, if_true]
      exact ⟨fun _ => ⟨claims, rfl, ht⟩, fun _ => True.intro⟩

/-- The wrong-type rejection arises exactly on signature-verified claims of
the wrong type (refresh case). -/
lemma validate_refresh_token_wrongtype_iff (now : Int) (secret : String) (t : Token) :
    validate_refresh_token now secret t = .error (.Unauthorized "Invalid token type") ↔
      ∃ c, validate_token now secret t = .ok c ∧ c.token_type ≠ "refresh" := by
  simp only [validate_refresh_token]
  cases hv : validate_token now secret t with
  | error e =>
    constructor
    · intro h
      cases h
      exact absurd hv (validate_token_ne_wrongtype now secret t)
    · rintro ⟨c, hc, _⟩; cases hc
  | ok claims =>
    by_cases ht : claims.token_type = "refresh"
    · simp only [Claims.is_refresh_token, ht, beq_self_eq_true, Bool.not_true,
        Bool.false_eq_true, if_false]
      constructor
      · intro h; cases h
      · rintro ⟨c, hc, hne⟩
        cases hc
        exact absurd ht hne
    · have hb : claims.is_refresh_token = false := by
        simp [Claims.is_refresh_token, ht]
      simp only [hb, Bool.not_false, if_true]
      exact ⟨fun _ => ⟨claims, rfl, ht⟩, fun _ => True.intro⟩

/-- A freshly signed token validates under the signing key. -/
lemma validate_token_fresh (now : Int) (secret : String) (c : Claims)
    (h : ¬ c.exp < now - JWT_DEFAULT_LEEWAY) :
    validate_token now secret (jwt_encode secret c) = .ok c := by
  simp [validate_token, jwt_decode, jwt_encode, h]

/-! ## Claim theorems -/

/-- C8: for all byte strings `a` and `b`, `constant_time_eq(a, b)` returns
true iff `a = b`; every pair of different lengths compares false, and every
equal-length pair differing somewhere compares false. -/
theorem C8_constant_time_eq_decides_equality :
    ∀ a b : List Nat,
      (constant_time_eq a b = true ↔ a = b) ∧
      (a.length ≠ b.length → constant_time_eq a b = false) ∧
      (a.length = b.length → a ≠ b → constant_time_eq a b = false) := by
  intro a b
  refine ⟨constant_time_eq_iff a b, ?_, ?_⟩
  · intro h
    cases hc : constant_time_eq a b with
    | false => rfl
    | true => exact absurd (congrArg List.length ((constant_time_eq_iff a b).mp hc)) h
  · intro _ hne
    cases hc : constant_time_eq a b with
    | false => rfl
    | true => exact absurd ((constant_time_eq_iff a b).mp hc) hne

/-- Witness for C8 at concrete byte lists (the bytes of "hi" vs "hj" and a
length mismatch). -/
theorem C8_constant_time_eq_decides_equality_witness :
    constant_time_eq [104, 105] [104, 105] = true ∧
    constant_time_eq [104] [104, 105] = false ∧
    constant_time_eq [104, 105] [104, 106] = false :=
  ⟨(C8_constant_time_eq_decides_equality [104, 105] [104, 105]).1.mpr rfl,
   (C8_constant_time_eq_decides_equality [104] [104, 105]).2.1 (by decide),
   (C8_constant_time_eq_decides_equality [104, 105] [104, 106]).2.2 (by decide) (by decide)⟩

/-- C2: the pair minted by `generate_token_pair` is type-separated under the
type-specific validators, and for every token the type-specific validators
accept exactly when the general validator accepts with the required
`token_type` — the wrong-type rejection occurring exactly on
signature-verified claims. -/
theorem C2_token_types_separated :
    ∀ (now : Int) (jti_a jti_r secret : String) (user_id : Int) (email : String),
      (validate_access_token now secret
          (generate_token_pair now jti_a jti_r secret user_id email).access_token
        = .ok (Claims.new_access now jti_a user_id email)) ∧
      (validate_refresh_token now secret
          (generate_token_pair now jti_a jti_r secret user_id email).access_token
        = .error (.Unauthorized "Invalid token type")) ∧
      (validate_refresh_token now secret
          (generate_token_pair now jti_a jti_r secret user_id email).refresh_token
        = .ok (Claims.new_refresh now jti_r user_id email)) ∧
      (validate_access_token now secret
          (generate_token_pair now jti_a jti_r secret user_id email).refresh_token
        = .error (.Unauthorized "Invalid token type")) ∧
      (∀ (t : Token) (c : Claims),
        (validate_access_token now secret t = .ok c ↔
          validate_token now secret t = .ok c ∧ c.token_type = "access") ∧
        (validate_refresh_token now secret t = .ok c ↔
          validate_token now secret t = .ok c ∧ c.token_type = "refresh")) ∧
      (∀ t : Token,
        (validate_access_token now secret t = .error (.Unauthorized "Invalid token type") ↔
          ∃ c, validate_token now secret t = .ok c ∧ c.token_type ≠ "access") ∧
        (validate_refresh_token now secret t = .error (.Unauthorized "Invalid token type") ↔
          ∃ c, validate_token now secret t = .ok c ∧ c.token_type ≠ "refresh")) := by
  intro now jti_a jti_r secret user_id email
  have hna : ¬ (Claims.new_access now jti_a user_id email).exp < now - JWT_DEFAULT_LEEWAY := by
    simp only [Claims.new_access, ACCESS_TOKEN_DURATION_MINUTES, JWT_DEFAULT_LEEWAY]
    omega
  have hnr : ¬ (Claims.new_refresh now jti_r user_id email).exp < now - JWT_DEFAULT_LEEWAY := by
    simp only [Claims.new_refresh, REFRESH_TOKEN_DURATION_DAYS, JWT_DEFAULT_LEEWAY]
    omega
  have hva := validate_token_fresh now secret (Claims.new_access now jti_a user_id email) hna
  have hvr := validate_token_fresh now secret (Claims.new_refresh now jti_r user_id email) hnr
  refine ⟨?_, ?_, ?_, ?_, ?_, ?_⟩
  · exact (validate_access_token_ok_iff now secret _ _).mpr ⟨hva, rfl⟩
  · exact (validate_refresh_token_wrongtype_iff now secret _).mpr
      ⟨_, hva, by simp [Claims.new_access]⟩
  · exact (validate_refresh_token_ok_iff now secret _ _).mpr ⟨hvr, rfl⟩
  · exact (validate_access_token_wrongtype_iff now secret _).mpr
      ⟨_, hvr, by simp [Claims.new_refresh]⟩
  · intro t c
    exact ⟨validate_access_token_ok_iff now secret t c,
           validate_refresh_token_ok_iff now secret t c⟩
  · intro t
    exact ⟨validate_access_token_wrongtype_iff now secret t,
           validate_refresh_token_wrongtype_iff now secret t⟩

/-- C6 counterexample: a signature-valid token whose `exp` is not in the
future (`exp = now`) is accepted by `validate_token`, because
`Validation::default()` carries a 60-second leeway — refuting "for every
token whose expires_at is less than or equal to the current time, validate
rejects it as expired". -/
theorem C6_no_tolerance_counterexample :
    (100 : Int) ≤ 100 ∧
    validate_token 100 "key"
      (Token.signed { sub := "1", email := "a@b.com", token_type := "access",
                      exp := 100, iat := 0, jti := "t1" } "key")
      = .ok { sub := "1", email := "a@b.com", token_type := "access",
              exp := 100, iat := 0, jti := "t1" } :=
  ⟨le_refl _, by decide⟩

/-- C6 (amended): token expiry validation applies the `jsonwebtoken` default
leeway of 60 seconds — a signature-valid token is rejected as expired exactly
when `exp < now - 60`, and is accepted whenever `now - 60 ≤ exp`. -/
theorem C6_expiry_uses_default_leeway :
    ∀ (now : Int) (key : String) (c : Claims),
      (validate_token now key (Token.signed c key)
          = .error (.Unauthorized "Token expired") ↔ c.exp < now - JWT_DEFAULT_LEEWAY) ∧
      (now - JWT_DEFAULT_LEEWAY ≤ c.exp →
        validate_token now key (Token.signed c key) = .ok c) := by
  intro now key c
  constructor
  · by_cases h : c.exp < now - JWT_DEFAULT_LEEWAY
    · simp [validate_token, jwt_decode, h]
    · simp [validate_token, jwt_decode, h]
  · intro hle
    have h : ¬ c.exp < now - JWT_DEFAULT_LEEWAY := by omega
    simp [validate_token, jwt_decode, h]

/-- Witness for C6 (amended) at a concrete stale-but-within-leeway token:
`exp = 50` at `now = 100` is accepted. -/
theorem C6_expiry_uses_default_leeway_witness :
    (100 : Int) - JWT_DEFAULT_LEEWAY ≤ 50 ∧
    validate_token 100 "key"
      (Token.signed { sub := "1", email := "a@b.com", token_type := "access",
                      exp := 50, iat := 0, jti := "t2" } "key")
      = .ok { sub := "1", email := "a@b.com", token_type := "access",
              exp := 50, iat := 0, jti := "t2" } :=
  ⟨by decide,
   (C6_expiry_uses_default_leeway 100 "key" _).2 (by decide)⟩

/-- Password validation succeeds exactly on the spec's admissible set. -/
lemma validate_password_ok_iff (alphabetic : Char → Bool) (p : String) :
    validate_password_strength alphabetic p = .ok () ↔
      (MIN_PASSWORD_LENGTH ≤ p.utf8ByteSize ∧ p.utf8ByteSize ≤ MAX_PASSWORD_LENGTH ∧
       p.data.any alphabetic = true ∧ p.data.any Char.isDigit = true) := by
  unfold validate_password_strength
  by_cases h1 : p.utf8ByteSize < MIN_PASSWORD_LENGTH
  · simp only [h1, if_true]
    constructor
    · intro h; cases h
    · intro h; omega
  · by_cases h2 : p.utf8ByteSize > MAX_PASSWORD_LENGTH
    · simp only [h1, if_false, h2, if_true]
      constructor
      · intro h; cases h
      · intro h; omega
    · by_cases h3 : (!p.data.any alphabetic || !p.data.any Char.isDigit) = true
      · simp only [h1, if_false, h2, h3, if_true]
        constructor
        · intro h; cases h
        · rintro ⟨_, _, hl, hd⟩
          rw [hl, hd] at h3
          cases h3
      · have h3f : (!p.data.any alphabetic || !p.data.any Char.isDigit) = false := by
          revert h3; cases (!p.data.any alphabetic || !p.data.any Char.isDigit) <;> simp
        simp only [h1, if_false, h2, h3f, Bool.false_eq_true]
        rw [Bool.or_eq_false_iff, Bool.not_eq_false', Bool.not_eq_false'] at h3f
        exact ⟨fun _ => ⟨by omega, by omega, h3f.1, h3f.2⟩, fun _ => True.intro⟩

/-- Every rejection of password validation is a `BadRequest`. -/
lemma validate_password_error_shape (alphabetic : Char → Bool) (p : String) :
    (∃ m, validate_password_strength alphabetic p = .error (.BadRequest m)) ↔
      ¬ (MIN_PASSWORD_LENGTH ≤ p.utf8ByteSize ∧ p.utf8ByteSize ≤ MAX_PASSWORD_LENGTH ∧
         p.data.any alphabetic = true ∧ p.data.any Char.isDigit = true) := by
  constructor
  · rintro ⟨m, hm⟩ hcond
    have := (validate_password_ok_iff alphabetic p).mpr hcond
    rw [this] at hm
    cases hm
  · intro hcond
    revert hcond
    unfold validate_password_strength
    by_cases h1 : p.utf8ByteSize < MIN_PASSWORD_LENGTH
    · intro _
      exact ⟨"Password must be at least 8 characters", by simp only [h1, if_true]⟩
    · by_cases h2 : p.utf8ByteSize > MAX_PASSWORD_LENGTH
      · intro _
        exact ⟨"Password must be at most 128 characters",
          by simp only [h1, if_false, h2, if_true]⟩
      · by_cases h3 : (!p.data.any alphabetic || !p.data.any Char.isDigit) = true
        · intro _
          exact ⟨"Password must contain at least one letter and one number",
            by simp only [h1, if_false, h2, h3, if_true]⟩
        · intro hcond
          have h3f : (!p.data.any alphabetic || !p.data.any Char.isDigit) = false := by
            revert h3; cases (!p.data.any alphabetic || !p.data.any Char.isDigit) <;> simp
          rw [Bool.or_eq_false_iff, Bool.not_eq_false', Bool.not_eq_false'] at h3f
          exact absurd ⟨by omega, by omega, h3f.1, h3f.2⟩ hcond

/-- `hash_password` succeeds iff validation does, with the same error. -/
lemma hash_password_ok_iff (alphabetic : Char → Bool) (salt p : String) :
    (∃ h, hash_password alphabetic salt p = .ok h) ↔
      validate_password_strength alphabetic p = .ok () := by
  unfold hash_password
  cases hv : validate_password_strength alphabetic p with
  | error e =>
    constructor
    · rintro ⟨h, hh⟩; cases hh
    · intro h; cases h
  | ok u =>
    cases u
    exact ⟨fun _ => rfl, fun _ => ⟨_, rfl⟩⟩

/-- `hash_password` propagates the validation error unchanged. -/
lemma hash_password_error_eq (alphabetic : Char → Bool) (salt p : String) (e : ApiError) :
    hash_password alphabetic salt p = .error e ↔
      validate_password_strength alphabetic p = .error e := by
  unfold hash_password
  cases hv : validate_password_strength alphabetic p with
  | error e2 =>
    constructor
    · intro h; cases h; rfl
    · intro h; cases h; rfl
  | ok u =>
    constructor
    · intro h; cases h
    · intro h; cases h

/-- If `findSome?` yields a value, some list element produced it. -/
lemma findSome?_some {α β : Type} (f : α → Option β) :
    ∀ (l : List α) (b : β), l.findSome? f = some b → ∃ a ∈ l, f a = some b := by
  intro l
  induction l with
  | nil => intro b h; cases h
  | cons a as ih =>
    intro b h
    rw [List.findSome?_cons] at h
    cases hf : f a with
    | some v =>
      rw [hf] at h
      cases h
      exact ⟨a, List.mem_cons_self a as, hf⟩
    | none =>
      rw [hf] at h
      obtain ⟨x, hx, hfx⟩ := ih b h
      exact ⟨x, List.mem_cons_of_mem a hx, hfx⟩

/-- The cookie-scanning loop never returns the empty string: an empty cookie
value is skipped, not returned. -/
lemma cookieFindValue_ne_empty (name s : String) :
    cookieFindValue name s ≠ some "" := by
  intro h
  obtain ⟨part, _, hf⟩ := findSome?_some _ _ _ h
  revert hf
  cases hs : stripPreChars (name.data ++ ['=']) (trimChars part) with
  | none => simp [hs]
  | some value =>
    simp only [hs]
    by_cases he : value.isEmpty
    · simp [he]
    · simp only [he, Bool.false_eq_true, if_false]
      intro hv
      have hmk : String.mk value = String.mk [] := by
        injection hv
      have : value = [] := by injection hmk
      rw [this] at he
      exact he rfl

/-- C9: `hash` validates before hashing — success exactly for passwords of
byte length 8–128 containing at least one letter and one digit, every
rejection a `BadRequest`, and the spec's three examples behave accordingly
("Short1" and "alllettersnodigit" fail, "Valid123" succeeds). -/
theorem C9_password_policy :
    ∀ (alphabetic : Char → Bool) (salt : String) (p : String),
      ((∃ h, hash_password alphabetic salt p = .ok h) ↔
        (MIN_PASSWORD_LENGTH ≤ p.utf8ByteSize ∧ p.utf8ByteSize ≤ MAX_PASSWORD_LENGTH ∧
         p.data.any alphabetic = true ∧ p.data.any Char.isDigit = true)) ∧
      ((∃ m, hash_password alphabetic salt p = .error (.BadRequest m)) ↔
        ¬ (MIN_PASSWORD_LENGTH ≤ p.utf8ByteSize ∧ p.utf8ByteSize ≤ MAX_PASSWORD_LENGTH ∧
           p.data.any alphabetic = true ∧ p.data.any Char.isDigit = true)) ∧
      (hash_password Char.isAlpha salt "Short1"
        = .error (.BadRequest "Password must be at least 8 characters")) ∧
      (hash_password Char.isAlpha salt "alllettersnodigit"
        = .error (.BadRequest "Password must contain at least one letter and one number")) ∧
      (hash_password Char.isAlpha salt "Valid123" = .ok { salt := salt, password := "Valid123" }) := by
  intro alphabetic salt p
  refine ⟨?_, ?_, ?_, ?_, ?_⟩
  · rw [hash_password_ok_iff, validate_password_ok_iff]
  · constructor
    · rintro ⟨m, hm⟩
      exact (validate_password_error_shape alphabetic p).mp
        ⟨m, (hash_password_error_eq alphabetic salt p _).mp hm⟩
    · intro hc
      obtain ⟨m, hm⟩ := (validate_password_error_shape alphabetic p).mpr hc
      exact ⟨m, (hash_password_error_eq alphabetic salt p _).mpr hm⟩
  · rfl
  · rfl
  · rfl

/-- Witness for C9: the policy theorem applied at the concrete inputs of the
spec's examples, with each hypothesis-free fact extracted. -/
theorem C9_password_policy_witness :
    (∃ h, hash_password Char.isAlpha "somesalt" "Valid123" = .ok h) ∧
    (∃ m, hash_password Char.isAlpha "somesalt" "Short1" = .error (.BadRequest m)) :=
  ⟨(C9_password_policy Char.isAlpha "somesalt" "Valid123").1.mpr (by decide),
   (C9_password_policy Char.isAlpha "somesalt" "Short1").2.1.mpr (by decide)⟩

/-- C10: the cookie extractors treat an empty-valued cookie as absent: none
of them ever yields the empty token string from a cookie, and on the exact
cookie shape that `logout`'s clearing produces (`access_token=` and
`refresh_token=` with empty values, plus an empty `csrf_token=`) all three
return `none`. -/
theorem C10_empty_cookie_treated_as_absent :
    ∀ headers : Headers,
      extract_refresh_token_from_cookie headers ≠ some "" ∧
      extract_csrf_from_cookie headers ≠ some "" ∧
      (headerGet headers "authorization" = none →
        extract_token_from_request headers ≠ some "") ∧
      (extract_refresh_token_from_cookie
          [("cookie", "access_token=; refresh_token=; csrf_token=")] = none ∧
       extract_csrf_from_cookie
          [("cookie", "access_token=; refresh_token=; csrf_token=")] = none ∧
       extract_token_from_request
          [("cookie", "access_token=; refresh_token=; csrf_token=")] = none) := by
  intro headers
  refine ⟨?_, ?_, ?_, by decide, by decide, by decide⟩
  · unfold extract_refresh_token_from_cookie
    cases hc : headerGet headers "cookie" with
    | none => simp
    | some s => exact cookieFindValue_ne_empty _ s
  · unfold extract_csrf_from_cookie
    cases hc : headerGet headers "cookie" with
    | none => simp
    | some s => exact cookieFindValue_ne_empty _ s
  · intro hauth
    unfold extract_token_from_request
    rw [hauth]
    simp only [Option.none_bind]
    cases hc : headerGet headers "cookie" with
    | none => simp
    | some s => exact cookieFindValue_ne_empty _ s

/-- Witness for C10 at a concrete header map with an empty `access_token`
cookie and no `Authorization` header. -/
theorem C10_empty_cookie_treated_as_absent_witness :
    extract_token_from_request [("cookie", "access_token=")] ≠ some "" :=
  (C10_empty_cookie_treated_as_absent [("cookie", "access_token=")]).2.2.1 (by decide)

/-- C1: the deployed `login` never consults a credential verifier — after the
emptiness check it issues tokens for the demo user unconditionally, so every
non-empty (email, password) pair, including pairs any verifier would reject,
receives a 200 success response, and the response does not depend on the
password at all. This contradicts the claim that a verifier rejection yields
a generic `Unauthorized` without tokens. -/
theorem C1_login_skips_credential_verification :
    ∀ (production : Bool) (headers : Headers) (email password password2 : String)
      (pair : TokenPairS),
      email.isEmpty = false → password.isEmpty = false → password2.isEmpty = false →
      ((login production headers ⟨email, password⟩ (.ok pair)).status = 200 ∧
       (login production headers ⟨email, password⟩ (.ok pair)).body.success = true ∧
       login production headers ⟨email, password⟩ (.ok pair)
         = login production headers ⟨email, password2⟩ (.ok pair)) := by
  intro production headers email password password2 pair he hp hp2
  unfold login
  simp only [he, hp, hp2, Bool.or_self, Bool.false_eq_true, if_false]
  by_cases hn : is_native_client headers = true
  · simp [hn]
  · have hnf : is_native_client headers = false := by
      revert hn; cases is_native_client headers <;> simp
    simp [hnf]

/-- Witness for C1 at the failing input: `email = "a@b.com"` with a password
no verifier would accept still yields a 200 success with an issued pair. -/
theorem C1_login_skips_credential_verification_witness :
    (login false [] ⟨"a@b.com", "totally-wrong-password-1"⟩
        (.ok { access_token := "JWTACCESS", refresh_token := "JWTREFRESH", expires_in := 900 })).status = 200 ∧
    (login false [] ⟨"a@b.com", "totally-wrong-password-1"⟩
        (.ok { access_token := "JWTACCESS", refresh_token := "JWTREFRESH", expires_in := 900 })).body.success = true :=
  ⟨(C1_login_skips_credential_verification false [] "a@b.com" "totally-wrong-password-1"
      "totally-wrong-password-1" _ (by decide) (by decide) (by decide)).1,
   (C1_login_skips_credential_verification false [] "a@b.com" "totally-wrong-password-1"
      "totally-wrong-password-1" _ (by decide) (by decide) (by decide)).2.1⟩

/-- The non-clearing access cookie, flattened. -/
lemma build_auth_cookie_eq (production : Bool) (t : String) :
    build_auth_cookie production t false =
      "access_token=" ++ t ++ "; HttpOnly; SameSite=Lax; Path=/; Max-Age=900"
        ++ (if production then "; Secure" else "") := by
  simp [build_auth_cookie, ACCESS_TOKEN_COOKIE_NAME, ACCESS_TOKEN_MAX_AGE_SECONDS,
    String.append_assoc, show toString (900 : Int) = "900" from rfl]

/-- The non-clearing refresh cookie, flattened. -/
lemma build_refresh_cookie_eq (production : Bool) (t : String) :
    build_refresh_cookie production t false =
      "refresh_token=" ++ t ++ "; HttpOnly; SameSite=Lax; Path=/api/v1/auth; Max-Age=604800"
        ++ (if production then "; Secure" else "") := by
  simp [build_refresh_cookie, REFRESH_TOKEN_COOKIE_NAME, REFRESH_TOKEN_MAX_AGE_SECONDS,
    String.append_assoc, show toString (604800 : Int) = "604800" from rfl]

/-- C3: the CSRF middleware exempts safe methods unconditionally and native
clients; otherwise a missing `csrf_token` cookie or a missing or mismatching
`X-CSRF-Token` header is rejected with Forbidden, and the request proceeds
exactly when the cookie and header values are present and equal. -/
theorem C3_csrf_middleware_gate :
    ∀ (method : String) (headers : Headers),
      ((method = "GET" ∨ method = "HEAD" ∨ method = "OPTIONS") →
        csrf_middleware method headers = .proceed) ∧
      (is_native_client headers = true →
        csrf_middleware method headers = .proceed) ∧
      (¬ (method = "GET" ∨ method = "HEAD" ∨ method = "OPTIONS") →
        is_native_client headers = false →
        ((extract_csrf_from_cookie headers = none →
            csrf_middleware method headers
              = .forbidden "CSRF token missing. Fetch /api/v1/csrf first.") ∧
         (∀ c, extract_csrf_from_cookie headers = some c →
            headerGet headers CSRF_HEADER_NAME = none →
            csrf_middleware method headers = .forbidden "CSRF token invalid") ∧
         (∀ c h, extract_csrf_from_cookie headers = some c →
            headerGet headers CSRF_HEADER_NAME = some h → c ≠ h →
            csrf_middleware method headers = .forbidden "CSRF token invalid") ∧
         (csrf_middleware method headers = .proceed ↔
            ∃ c, extract_csrf_from_cookie headers = some c ∧
                 headerGet headers CSRF_HEADER_NAME = some c))) := by
  intro method headers
  by_cases hsafe : (method == "GET" || method == "HEAD" || method == "OPTIONS") = true
  · refine ⟨fun _ => by simp [csrf_middleware, hsafe], fun _ => by simp [csrf_middleware, hsafe],
      fun hns _ => ?_⟩
    simp only [Bool.or_eq_true, beq_iff_eq] at hsafe
    exact absurd (by tauto) hns
  · have hsf : (method == "GET" || method == "HEAD" || method == "OPTIONS") = false := by
      revert hsafe; cases (method == "GET" || method == "HEAD" || method == "OPTIONS") <;> simp
    have hmn : ¬ (method = "GET" ∨ method = "HEAD" ∨ method = "OPTIONS") := by
      intro h
      rcases h with h | h | h <;> simp [h] at hsf
    refine ⟨fun h => absurd h hmn, fun hn => by simp [csrf_middleware, hsf, hn], ?_⟩
    intro _ hnn
    refine ⟨?_, ?_, ?_, ?_⟩
    · intro hce
      cases hh : headerGet headers CSRF_HEADER_NAME <;>
        simp [csrf_middleware, hsf, hnn, hce, hh]
    · intro c hce hh
      simp [csrf_middleware, hsf, hnn, hce, hh]
    · intro c h hce hh hne
      have hct : str_ct_eq c h = false := by
        cases hv : str_ct_eq c h
        · rfl
        · exact absurd ((str_ct_eq_iff c h).mp hv) hne
      simp [csrf_middleware, hsf, hnn, hce, hh, hct]
    · constructor
      · intro hp
        revert hp
        cases hce : extract_csrf_from_cookie headers with
        | none =>
          cases hh : headerGet headers CSRF_HEADER_NAME <;>
            simp [csrf_middleware, hsf, hnn, hce, hh]
        | some c =>
          cases hh : headerGet headers CSRF_HEADER_NAME with
          | none => simp [csrf_middleware, hsf, hnn, hce, hh]
          | some h2 =>
            by_cases hct : str_ct_eq c h2 = true
            · have hceq : c = h2 := (str_ct_eq_iff c h2).mp hct
              subst hceq
              intro _
              exact ⟨c, rfl, rfl⟩
            · have hctf : str_ct_eq c h2 = false := by
                revert hct; cases str_ct_eq c h2 <;> simp
              simp [csrf_middleware, hsf, hnn, hce, hh, hctf]
      · rintro ⟨c, hce, hh⟩
        simp [csrf_middleware, hsf, hnn, hce, hh, (str_ct_eq_iff c c).mpr rfl]

/-- Witness for C3 across its cases: a safe method with no tokens proceeds, a
native POST proceeds, a POST without the cookie is Forbidden, a POST with a
mismatching header is Forbidden, and a POST with matching pair proceeds. -/
theorem C3_csrf_middleware_gate_witness :
    csrf_middleware "GET" [] = .proceed ∧
    csrf_middleware "POST" [("x-client-type", "Native")] = .proceed ∧
    csrf_middleware "POST" [("x-csrf-token", "tok")]
      = .forbidden "CSRF token missing. Fetch /api/v1/csrf first." ∧
    csrf_middleware "POST" [("cookie", "csrf_token=tok"), ("x-csrf-token", "other")]
      = .forbidden "CSRF token invalid" ∧
    csrf_middleware "POST" [("cookie", "csrf_token=tok"), ("x-csrf-token", "tok")]
      = .proceed :=
  ⟨(C3_csrf_middleware_gate "GET" []).1 (Or.inl rfl),
   (C3_csrf_middleware_gate "POST" [("x-client-type", "Native")]).2.1 (by decide),
   ((C3_csrf_middleware_gate "POST" [("x-csrf-token", "tok")]).2.2
      (by decide) (by decide)).1 (by decide),
   (((C3_csrf_middleware_gate "POST"
        [("cookie", "csrf_token=tok"), ("x-csrf-token", "other")]).2.2
      (by decide) (by decide)).2.2.1 "tok" "other" (by decide) (by decide) (by decide)),
   (((C3_csrf_middleware_gate "POST"
        [("cookie", "csrf_token=tok"), ("x-csrf-token", "tok")]).2.2
      (by decide) (by decide)).2.2.2.mpr ⟨"tok", by decide, by decide⟩)⟩

/-- C4: on a successful login the response shape is fixed by the client
type — native gets both tokens plus `expires_in = 900` in the body with no
`Set-Cookie`; anything else gets exactly the two cookies (access: `Path=/`,
`Max-Age=900`; refresh: `Path=/api/v1/auth`, `Max-Age=604800`; both
`HttpOnly` and `SameSite=Lax`, plus `Secure` in production) and a body with
`expires_in = 900` and no token values; and the pair minted by
`generate_token_pair` carries `expires_in = 900`. -/
theorem C4_login_response_by_client_type :
    ∀ (production : Bool) (headers : Headers) (request : LoginRequest) (pair : TokenPairS)
      (now : Int) (jti_a jti_r secret : String) (user_id : Int) (em : String),
      request.email.isEmpty = false →
      request.password.isEmpty = false →
      pair.expires_in = 900 →
      pair.access_token.isEmpty = false →
      pair.refresh_token.isEmpty = false →
      ((generate_token_pair now jti_a jti_r secret user_id em).expires_in = 900) ∧
      (is_native_client headers = true →
        (login production headers request (.ok pair)).status = 200 ∧
        (login production headers request (.ok pair)).set_cookies = [] ∧
        (∃ a, (login production headers request (.ok pair)).body.access_token = some a ∧
              a.isEmpty = false ∧ a = pair.access_token) ∧
        (∃ r, (login production headers request (.ok pair)).body.refresh_token = some r ∧
              r.isEmpty = false ∧ r = pair.refresh_token) ∧
        (login production headers request (.ok pair)).body.expires_in = some 900) ∧
      (is_native_client headers = false →
        (login production headers request (.ok pair)).status = 200 ∧
        (login production headers request (.ok pair)).set_cookies =
          ["access_token=" ++ pair.access_token ++ "; HttpOnly; SameSite=Lax; Path=/; Max-Age=900"
             ++ (if production then "; Secure" else ""),
           "refresh_token=" ++ pair.refresh_token
             ++ "; HttpOnly; SameSite=Lax; Path=/api/v1/auth; Max-Age=604800"
             ++ (if production then "; Secure" else "")] ∧
        (login production headers request (.ok pair)).body.access_token = none ∧
        (login production headers request (.ok pair)).body.refresh_token = none ∧
        (login production headers request (.ok pair)).body.expires_in = some 900) := by
  intro production headers request pair now jti_a jti_r secret user_id em he hp h900 hna hnr
  refine ⟨rfl, ?_, ?_⟩
  · intro hn
    simp [login, he, hp, hn, h900, hna, hnr]
  · intro hn
    simp [login, he, hp, hn, h900, build_auth_cookie_eq, build_refresh_cookie_eq]

/-- Witness for C4 at a concrete successful login, in both client shapes. -/
theorem C4_login_response_by_client_type_witness :
    (login false [("x-client-type", "native")] ⟨"a@b.com", "Secure123"⟩
        (.ok { access_token := "AT", refresh_token := "RT", expires_in := 900 })).set_cookies = [] ∧
    (login false [] ⟨"a@b.com", "Secure123"⟩
        (.ok { access_token := "AT", refresh_token := "RT", expires_in := 900 })).set_cookies =
      ["access_token=AT; HttpOnly; SameSite=Lax; Path=/; Max-Age=900",
       "refresh_token=RT; HttpOnly; SameSite=Lax; Path=/api/v1/auth; Max-Age=604800"] := by
  refine ⟨((C4_login_response_by_client_type false [("x-client-type", "native")]
      ⟨"a@b.com", "Secure123"⟩ { access_token := "AT", refresh_token := "RT", expires_in := 900 }
      0 "a" "r" "s" 1 "e" (by decide) (by decide) (by decide) (by decide) (by decide)).2.1
      (by decide)).2.1, ?_⟩
  have h := ((C4_login_response_by_client_type false []
      ⟨"a@b.com", "Secure123"⟩ { access_token := "AT", refresh_token := "RT", expires_in := 900 }
      0 "a" "r" "s" 1 "e" (by decide) (by decide) (by decide) (by decide) (by decide)).2.2
      (by decide)).2.1
  simpa using h

/-- C5: the refresh endpoint takes its token from the JSON body whenever one
is present (the attached refresh cookie is ignored entirely), and only
otherwise from the `refresh_token` cookie; a missing or empty token is 401,
any token failing refresh-validation is 401 with the generic message, and an
access token placed in the refresh slot is 401. -/
theorem C5_refresh_sourcing_and_rejection :
    ∀ (now : Int) (secret jti : String) (headers : Headers)
      (cookie1 cookie2 : Option Token) (req : RefreshRequestT) (t : Token),
      (refresh now secret jti headers cookie1 (some req)
         = refresh now secret jti headers cookie2 (some req)) ∧
      (refresh now secret jti headers (some t) none
         = refresh now secret jti headers none (some { refresh_token := t })) ∧
      (refresh now secret jti headers none none
         = { status := 401, set_cookie_access := none, success := false
             message := some "Refresh token required"
             body_access_token := none, body_expires_in := none }) ∧
      (req.refresh_token.isEmptyS = true →
        refresh now secret jti headers cookie1 (some req)
          = { status := 401, set_cookie_access := none, success := false
              message := some "Refresh token required"
              body_access_token := none, body_expires_in := none }) ∧
      (∀ e, validate_refresh_token now secret t = .error e →
        t.isEmptyS = false →
        refresh now secret jti headers cookie1 (some { refresh_token := t })
          = { status := 401, set_cookie_access := none, success := false
              message := some "Invalid or expired refresh token"
              body_access_token := none, body_expires_in := none }) ∧
      (∀ (now2 : Int) (jti2 : String) (user_id : Int) (em : String),
        (refresh now secret jti headers cookie1
            (some { refresh_token := generate_access_token now2 jti2 secret user_id em })).status
          = 401) := by
  intro now secret jti headers cookie1 cookie2 req t
  refine ⟨rfl, rfl, rfl, ?_, ?_, ?_⟩
  · intro hemp
    simp [refresh, hemp]
  · intro e herr hne
    simp [refresh, hne, herr]
  · intro now2 jti2 user_id em
    by_cases hexp : now2 + ACCESS_TOKEN_DURATION_MINUTES * 60 < now - JWT_DEFAULT_LEEWAY
    · simp [refresh, generate_access_token, jwt_encode, Token.isEmptyS,
        validate_refresh_token, validate_token, jwt_decode, Claims.new_access, hexp]
    · simp [refresh, generate_access_token, jwt_encode, Token.isEmptyS,
        validate_refresh_token, validate_token, jwt_decode, Claims.new_access, hexp,
        Claims.is_refresh_token]

/-- Witness for C5: a present-but-empty body token is 401 even with a valid
refresh cookie attached, and a garbage token in the body is 401. -/
theorem C5_refresh_sourcing_and_rejection_witness :
    refresh 0 "k" "j" [] (some (Token.signed (Claims.new_refresh 0 "r" 1 "e") "k"))
        (some { refresh_token := Token.garbage "" })
      = { status := 401, set_cookie_access := none, success := false
          message := some "Refresh token required"
          body_access_token := none, body_expires_in := none } ∧
    refresh 0 "k" "j" [] none (some { refresh_token := Token.garbage "nonsense" })
      = { status := 401, set_cookie_access := none, success := false
          message := some "Invalid or expired refresh token"
          body_access_token := none, body_expires_in := none } :=
  ⟨(C5_refresh_sourcing_and_rejection 0 "k" "j" []
      (some (Token.signed (Claims.new_refresh 0 "r" 1 "e") "k")) none
      { refresh_token := Token.garbage "" } (Token.garbage "")).2.2.2.1 (by decide),
   (C5_refresh_sourcing_and_rejection 0 "k" "j" [] none none
      { refresh_token := Token.garbage "nonsense" }
      (Token.garbage "nonsense")).2.2.2.2.1 (.Unauthorized "Invalid token")
      (by decide) (by decide)⟩

/-- The production check inside `AppConfig::from_env` agrees with the
request-time `is_production()` predicate. -/
lemma from_env_production_agrees (env : Env) :
    ((lowerStr ((envVar env "ENVIRONMENT").getD "development") == "production")
      || (lowerStr ((envVar env "ENVIRONMENT").getD "development") == "prod"))
      = is_production env := by
  cases h : envVar env "ENVIRONMENT" with
  | some v => simp [is_production, h]
  | none => simp [is_production, h]; decide

/-- Startup configuration cannot succeed in production without
`JWT_SECRET`. -/
lemma from_env_err_of_production_no_secret (env : Env)
    (hprod : is_production env = true) (hnone : envVar env "JWT_SECRET" = none) :
    (AppConfig.from_env env).isOk = false := by
  unfold AppConfig.from_env
  simp only [from_env_production_agrees, hprod, hnone, Bool.true_and,
    Option.isNone_none, eq_self_iff_true, if_true]
  split
  · rfl
  · split <;> rfl

/-- C7: with the production flag set (`ENVIRONMENT` lowering to "production"
or "prod") and `JWT_SECRET` unset, startup configuration fails (and `main`
exits); in any run that did start in production the signing secret comes from
the environment, never the fallback; and the fixed development fallback (with
its warning) only ever happens when `JWT_SECRET` is unset in a debug build. -/
theorem C7_production_fatal_without_secret :
    ∀ (env : Env) (debug_assertions : Bool),
      (is_production env = true → envVar env "JWT_SECRET" = none →
        (AppConfig.from_env env).isOk = false) ∧
      ((AppConfig.from_env env).isOk = true → is_production env = true →
        ∃ s, envVar env "JWT_SECRET" = some s ∧
          get_jwt_secret debug_assertions env = .fromEnv s) ∧
      (get_jwt_secret debug_assertions env = .devFallbackWithWarning →
        envVar env "JWT_SECRET" = none ∧ debug_assertions = true) := by
  intro env debug_assertions
  refine ⟨from_env_err_of_production_no_secret env, ?_, ?_⟩
  · intro hok hprod
    cases hs : envVar env "JWT_SECRET" with
    | none =>
      rw [from_env_err_of_production_no_secret env hprod hs] at hok
      cases hok
    | some s =>
      exact ⟨s, rfl, by simp [get_jwt_secret, hs]⟩
  · intro hfb
    unfold get_jwt_secret at hfb
    cases hs : envVar env "JWT_SECRET" with
    | some s => rw [hs] at hfb; cases hfb
    | none =>
      rw [hs] at hfb
      by_cases hd : debug_assertions = true
      · exact ⟨rfl, hd⟩
      · have : debug_assertions = false := by revert hd; cases debug_assertions <;> simp
        rw [this] at hfb
        cases hfb

/-- Witness for C7: a production environment without `JWT_SECRET` fails
startup; a complete production environment starts and draws the secret from
the environment; the fallback in a debug run implies the secret was unset. -/
theorem C7_production_fatal_without_secret_witness :
    (AppConfig.from_env [("ENVIRONMENT", "production")]).isOk = false ∧
    (∃ s, envVar [("ENVIRONMENT", "prod"), ("ALLOWED_ORIGINS", "https://a.example"),
            ("JWT_SECRET", "topsecret")] "JWT_SECRET" = some s ∧
      get_jwt_secret false [("ENVIRONMENT", "prod"), ("ALLOWED_ORIGINS", "https://a.example"),
            ("JWT_SECRET", "topsecret")] = .fromEnv s) ∧
    (envVar ([] : Env) "JWT_SECRET" = none ∧ true = true) :=
  ⟨(C7_production_fatal_without_secret [("ENVIRONMENT", "production")] false).1
      (by decide) (by decide),
   (C7_production_fatal_without_secret [("ENVIRONMENT", "prod"),
        ("ALLOWED_ORIGINS", "https://a.example"), ("JWT_SECRET", "topsecret")] false).2.1
      (by decide) (by decide),
   (C7_production_fatal_without_secret [] true).2.2 (by decide)⟩

end AppVirgin
